import Mathlib

/-!
Verification of the ClinicalTrials repository's eligibility evaluator
(`src/models.py`), message composer (`src/models.py`), registry-client
error handling and deduplication (`src/clinical_trials_scraper.py`),
bulk-email error handling (`src/email_service.py`), the form validator
(`src/forms.py`) and the ZIP-code locality lookup (`src/email_service.py`).

Python strings are modelled as Lean `String`; Python `None` for optional
arguments as `Option`; an uncaught Python exception as an `Option.none`
result.  Python's `re.match(r'^\d{n}$', s)` accepts `n` ASCII digits
optionally followed by one trailing newline (the `$` anchor also matches
just before a final newline); the regex digit class is modelled by ASCII
`Char.isDigit`.  Python's Unicode-aware `str.isdigit`/`int()` pair used
by the ZIP lookup is modelled by `pyIsDigitStr`/`pyIntOfString?` over a
documented character repertoire (`pyCharModelled`) that separates
digit-typed from decimal characters.  Python substring containment
`a in b` is modelled by
`infixOfB` on the character lists.  Core `String.map`, `String.take` and
`String.trim` are avoided (their position-based recursion does not reduce
definitionally); `pyLower`, `pyTake` and `pyStrip` are the list-based
equivalents.
-/

/-- Python `str.lower()` (ASCII letters; all string data in this
repository is ASCII). -/
def pyLower (s : String) : String :=
  ⟨s.data.map Char.toLower⟩

/-- Python `s[:n]` for strings. -/
def pyTake (s : String) (n : Nat) : String :=
  ⟨s.data.take n⟩

/-- Character list of Python `s.strip()`: leading and trailing whitespace
removed. -/
def pyStrip (s : String) : List Char :=
  ((s.data.dropWhile Char.isWhitespace).reverse.dropWhile Char.isWhitespace).reverse

/-- Containment of `l₁` as a contiguous run inside `l₂`. -/
def infixOfB (l₁ : List Char) : List Char → Bool
  | [] => l₁.isEmpty
  | l₂@(_ :: t) => l₁.isPrefixOf l₂ || infixOfB l₁ t

/-- Python substring test `needle in hay` (`str.__contains__`). -/
def substrB (needle hay : String) : Bool :=
  infixOfB needle.data hay.data

/-- Model of Python `re.match(r'^\d{6}$', s)` (models.py line 55):
six ASCII digits, or six ASCII digits followed by a single trailing
newline (accepted by the `$` anchor). -/
def matchSixDigits (s : String) : Bool :=
  (s.data.length == 6 && s.data.all Char.isDigit) ||
  (s.data.length == 7 && (s.data.take 6).all Char.isDigit && s.data.getLast? == some '\n')

/-- Model of Python `re.match(r'^\d{10}$', s)` (models.py line 108). -/
def matchTenDigits (s : String) : Bool :=
  (s.data.length == 10 && s.data.all Char.isDigit) ||
  (s.data.length == 11 && (s.data.take 10).all Char.isDigit && s.data.getLast? == some '\n')

/-- Model of Python `re.match(r'^\d{5}$', s)`, the `InterestForm.zipcode`
validator regex (forms.py lines 22-25). -/
def matchFiveDigits (s : String) : Bool :=
  (s.data.length == 5 && s.data.all Char.isDigit) ||
  (s.data.length == 6 && (s.data.take 5).all Char.isDigit && s.data.getLast? == some '\n')

/-- The allow-list of serviced pincode prefixes (models.py lines 59-81). -/
def allowedPincodePrefixes : List String :=
  ["11", "40", "56", "57", "60", "70", "50", "38", "20", "41", "30",
   "22", "12", "14", "16", "15", "80", "75", "64", "62", "68"]

/-- The exclusionary health keywords (models.py lines 92-99).  The entry
`"HIV positive"` is kept in its original (partly upper-case) spelling,
exactly as in the source. -/
def exclusionaryKeywords : List String :=
  ["pregnant", "pregnancy", "breastfeeding", "nursing",
   "severe mental illness", "psychosis", "schizophrenia",
   "active cancer", "chemotherapy", "radiation therapy",
   "organ transplant", "immunocompromised", "HIV positive",
   "severe liver disease", "kidney failure", "dialysis",
   "recent surgery", "hospitalized currently"]

/-- Reason string of models.py line 50. -/
def tooYoungReason : String := "Participants must be at least 18 years old"

/-- Reason string of models.py line 52. -/
def tooOldReason : String :=
  "Participants must be 85 years old or younger for safety considerations"

/-- Reason string of models.py line 56. -/
def formatReason : String := "Pincode must be a valid 6-digit number"

/-- Reason string of models.py line 85 (an f-string embedding the pincode). -/
def areaReason (pincode : String) : String :=
  "Clinical trials are not currently available in your area (pincode: " ++ pincode ++ ")"

/-- Reason string of models.py line 89. -/
def healthShortReason : String :=
  "Please provide detailed health information (minimum 10 characters)"

/-- Reason string of models.py line 104. -/
def kwReason : String :=
  "Current health status may require specialized medical evaluation before trial participation"

/-- Reason string of models.py line 109. -/
def mobileReason : String := "Please provide a valid 10-digit mobile number"

/-- Reason string of models.py line 114 (an f-string embedding the trial minimum age). -/
def minAgeReason (n : Int) : String :=
  "This specific trial requires participants to be at least " ++ toString n ++ " years old"

/-- Reason string of models.py line 117 (an f-string embedding the trial maximum age). -/
def maxAgeReason (n : Int) : String :=
  "This specific trial requires participants to be " ++ toString n ++ " years old or younger"

/-- Reason string of models.py line 122 (an f-string embedding the joined condition list). -/
def condReason (conditions : List String) : String :=
  "This trial requires participants with specific conditions: " ++
    String.intercalate ", " conditions

/-- Reason string of models.py line 128 (an f-string embedding the medication name). -/
def medReason (med : String) : String :=
  "Current medication (" ++ med ++ ") may interfere with trial participation"

/-- The optional `additional_checks` dictionary of
`check_clinical_trial_eligibility` (models.py lines 112-128); each key's
presence is an `Option`. -/
structure AdditionalChecks where
  min_age : Option Int := none
  max_age : Option Int := none
  required_conditions : Option (List String) := none
  excluded_medications : Option (List String) := none

/-- Reasons appended by the age rule (models.py lines 49-52). -/
def ageSeg (age : Int) : List String :=
  if age < 18 then [tooYoungReason]
  else if age > 85 then [tooOldReason]
  else []

/-- Reasons appended by the pincode rule (models.py lines 55-85): the
format check and the allow-list check sit on the two sides of an if/else. -/
def pincodeSeg (pincode : String) : List String :=
  if matchSixDigits pincode then
    if pyTake pincode 2 ∈ allowedPincodePrefixes then [] else [areaReason pincode]
  else [formatReason]

/-- Reason appended by the health-length rule (models.py lines 88-89);
`not health_info` is Python truthiness, i.e. the empty string here. -/
def healthSeg (health_info : String) : List String :=
  if health_info.data.isEmpty || (pyStrip health_info).length < 10 then [healthShortReason] else []

/-- Reason appended by the exclusionary-keyword scan (models.py lines
101-105): the loop appends the single generic reason at the first keyword
contained in the lowered health text and breaks. -/
def kwSeg (health_info_lower : String) : List String :=
  if exclusionaryKeywords.any (fun k => substrB k health_info_lower) then [kwReason] else []

/-- Reason appended by the mobile rule (models.py lines 108-109);
`if mobile` is Python truthiness, so `None` and `""` skip the check. -/
def mobSeg (mobile : Option String) : List String :=
  match mobile with
  | none => []
  | some m => if m.data.isEmpty then [] else if matchTenDigits m then [] else [mobileReason]

/-- Reason appended by the `min_age` override (models.py lines 113-114). -/
def minAgeSeg (age : Int) (o : Option Int) : List String :=
  match o with
  | some n => if age < n then [minAgeReason n] else []
  | none => []

/-- Reason appended by the `max_age` override (models.py lines 116-117). -/
def maxAgeSeg (age : Int) (o : Option Int) : List String :=
  match o with
  | some n => if age > n then [maxAgeReason n] else []
  | none => []

/-- Reason appended by the `required_conditions` check (models.py lines
119-122): each condition is lowered and looked up in the lowered health
text; the reason fires when none is present. -/
def condSeg (health_info_lower : String) (o : Option (List String)) : List String :=
  match o with
  | some cs =>
    if cs.any (fun c => substrB (pyLower c) health_info_lower) then [] else [condReason cs]
  | none => []

/-- Reasons appended by the `excluded_medications` scan (models.py lines
124-128): one reason per matched medication, in list order. -/
def medSeg (health_info_lower : String) (o : Option (List String)) : List String :=
  match o with
  | some ms => (ms.filter (fun m => substrB (pyLower m) health_info_lower)).map medReason
  | none => []

/-- Reasons appended by the `additional_checks` rules (models.py lines
112-128), in source order: min_age, max_age, required_conditions,
excluded_medications.  A `None` dictionary (and the observably equivalent
falsy empty dictionary) contributes nothing. -/
def addlSeg (age : Int) (health_info_lower : String) (ac : Option AdditionalChecks) :
    List String :=
  match ac with
  | none => []
  | some a =>
    minAgeSeg age a.min_age ++ maxAgeSeg age a.max_age ++
      condSeg health_info_lower a.required_conditions ++
      medSeg health_info_lower a.excluded_medications

/-- The full reason list built by `check_clinical_trial_eligibility`
(models.py lines 46-128); the Python code appends to one list in exactly
this rule order. -/
def eligibilityReasons (age : Int) (pincode : String) (health_info : String)
    (mobile : Option String) (ac : Option AdditionalChecks) : List String :=
  ageSeg age ++ pincodeSeg pincode ++ healthSeg health_info ++
    kwSeg (pyLower health_info) ++ mobSeg mobile ++ addlSeg age (pyLower health_info) ac

/-- Model of `check_clinical_trial_eligibility` (models.py lines 30-133).
The `health_info` argument may be Python `None`; in that case the source
reaches `health_info.lower()` at line 101 and raises `AttributeError`,
modelled by an `Option.none` result.  Otherwise it returns
`(len(reasons) == 0, reasons)`. -/
def check_clinical_trial_eligibility (age : Int) (pincode : String)
    (health_info : Option String) (mobile : Option String := none)
    (ac : Option AdditionalChecks := none) : Option (Bool × List String) :=
  match health_info with
  | none => none
  | some h =>
    let reasons := eligibilityReasons age pincode h mobile ac
    some (reasons.isEmpty, reasons)

/-- Success message of `get_eligibility_message` (models.py lines 148-153). -/
def successMessage : String :=
  "Congratulations! You meet our initial eligibility criteria for clinical trial participation. Our clinical research team will review your information and contact you within 5-7 business days to discuss specific trials that may be suitable for you."

/-- Follow-up appended to a lone area reason (models.py lines 155-160). -/
def areaFollowUp : String :=
  ". We are continuously expanding our trial locations. Please check back in the future or contact us if you're willing to travel to a nearby location."

/-- Follow-up appended to a lone health-status reason (models.py lines 162-168). -/
def healthFollowUp : String :=
  ". This doesn't disqualify you from all trials. Our medical team will review your case individually and may contact you for trials with different eligibility criteria."

/-- Fixed front of the error-tier message (models.py line 174). -/
def errorMessageFront : String :=
  "We're unable to proceed with your application at this time. "

/-- Contact-info tail of the error-tier message (models.py lines 174-176). -/
def errorMessageTail : String :=
  ". Please contact our clinical trials information center at 1-800-TRIALS-1 if you have questions about eligibility requirements."

/-- Model of `get_eligibility_message` (models.py lines 135-177). -/
def get_eligibility_message (is_eligible : Bool) (reasons : List String) : String × String :=
  if is_eligible then ("success", successMessage)
  else if reasons.length == 1 && substrB "area" (reasons.headD "") then
    ("warning", reasons.headD "" ++ areaFollowUp)
  else if reasons.length == 1 && substrB "health status" (reasons.headD "") then
    ("warning", reasons.headD "" ++ healthFollowUp)
  else
    ("error", errorMessageFront ++ String.intercalate "; " reasons ++ errorMessageTail)

/-- Catch-all pair of `get_locality_from_zipcode` (email_service.py line 417). -/
def catchAllLocality : String × String :=
  ("your area", "Clinical trials may be available at regional medical centers")

/-- Decimal value of a Unicode decimal-digit character (general category
Nd), for the character repertoire modelled in this development: the ASCII
digits and the Arabic-Indic digits U+0660-U+0669.  Python `int()` accepts
exactly Nd characters and uses this value. -/
def pyDecimalValue? (c : Char) : Option Nat :=
  if '0' ≤ c ∧ c ≤ '9' then some (c.toNat - '0'.toNat)
  else if '\u0660' ≤ c ∧ c ≤ '\u0669' then some (c.toNat - 0x660)
  else none

/-- Python `str.isdigit` character test (Numeric_Type Digit or Decimal),
for the modelled repertoire: the decimal digits of `pyDecimalValue?` plus
the superscript digits U+00B9, U+00B2, U+00B3, which are digit-typed but
not decimal (category No), so `str.isdigit` accepts them while `int()`
rejects them. -/
def pyIsDigitChar (c : Char) : Bool :=
  (pyDecimalValue? c).isSome || c == '\u00B9' || c == '\u00B2' || c == '\u00B3'

/-- Python `s.isdigit()`: nonempty and every character digit-typed. -/
def pyIsDigitStr (s : String) : Bool :=
  !s.data.isEmpty && s.data.all pyIsDigitChar

/-- Python `int(s)` on the strings that reach it here (no sign, no
whitespace, guarded by `isdigit`): the base-10 value of the decimal
digits; `none` models the `ValueError` raised when some character is
digit-typed but not a decimal digit (e.g. a superscript). -/
def pyIntOfString? (s : String) : Option Nat :=
  s.data.foldl
    (fun acc c =>
      match acc, pyDecimalValue? c with
      | some a, some d => some (a * 10 + d)
      | _, _ => none)
    (some 0)

/-- The character repertoire on which this model of `isdigit`/`int()` is
exact: all of ASCII plus the Unicode digits listed above. -/
def pyCharModelled (c : Char) : Bool :=
  c.toNat < 128 || pyIsDigitChar c

/-- Python `int(zipcode) if zipcode.isdigit() and len(zipcode) == 5 else 0`
(email_service.py line 393); `none` models the `ValueError` that `int()`
raises on an isdigit-true string containing a non-decimal digit. -/
def zipcodeNumericValue (zipcode : String) : Option Nat :=
  if pyIsDigitStr zipcode && zipcode.data.length == 5 then pyIntOfString? zipcode
  else some 0

/-- Disjunction of the branch guards of `get_locality_from_zipcode`
(email_service.py lines 396-415). -/
def inListedZipRange (n : Nat) : Prop :=
  (10000 ≤ n ∧ n ≤ 19999) ∨ (90000 ≤ n ∧ n ≤ 96199) ∨ (60600 ≤ n ∧ n ≤ 60699) ∨
  (77000 ≤ n ∧ n ≤ 77599) ∨ (85000 ≤ n ∧ n ≤ 85399) ∨ (19100 ≤ n ∧ n ≤ 19199) ∨
  (94100 ≤ n ∧ n ≤ 94199) ∨ (98100 ≤ n ∧ n ≤ 98199) ∨ (2100 ≤ n ∧ n ≤ 2199) ∨
  (80200 ≤ n ∧ n ≤ 80299)

instance (n : Nat) : Decidable (inListedZipRange n) := by
  unfold inListedZipRange; infer_instance

/-- The elif chain of `get_locality_from_zipcode` (email_service.py
lines 396-417), applied to the computed numeric value. -/
def zipRegionLookup (n : Nat) : String × String :=
  if 10000 ≤ n ∧ n ≤ 19999 then
    ("New York Metro", "Both trials available at nearby research centers")
  else if 90000 ≤ n ∧ n ≤ 96199 then
    ("Los Angeles Metro", "Both trials available at UCLA and nearby centers")
  else if 60600 ≤ n ∧ n ≤ 60699 then
    ("Chicago Metro", "Trials available at Northwestern and University of Chicago")
  else if 77000 ≤ n ∧ n ≤ 77599 then
    ("Houston Metro", "MD Anderson Cancer Center - recommended for both trials")
  else if 85000 ≤ n ∧ n ≤ 85399 then
    ("Phoenix Metro", "Both trials available at Mayo Clinic Arizona")
  else if 19100 ≤ n ∧ n ≤ 19199 then
    ("Philadelphia Metro", "University of Pennsylvania - excellent for both trials")
  else if 94100 ≤ n ∧ n ≤ 94199 then
    ("San Francisco Metro", "UCSF - PRIMARY SITE for both LOCUS and ATHENA trials")
  else if 98100 ≤ n ∧ n ≤ 98199 then
    ("Seattle Metro", "University of Washington Medical Center")
  else if 2100 ≤ n ∧ n ≤ 2199 then
    ("Boston Metro", "Dana-Farber Cancer Institute and Harvard Medical")
  else if 80200 ≤ n ∧ n ≤ 80299 then
    ("Denver Metro", "University of Colorado Cancer Center")
  else catchAllLocality

/-- Model of `get_locality_from_zipcode` (email_service.py lines
391-417); `none` models an uncaught `ValueError` from the `int()`
coercion at line 393. -/
def get_locality_from_zipcode (zipcode : String) : Option (String × String) :=
  match zipcodeNumericValue zipcode with
  | none => none
  | some n => some (zipRegionLookup n)

/-- A processed trial record; the registry client's merge and
deduplication depend only on the `nct_id` field, so the remaining
projected fields are abstracted into `payload`. -/
structure Trial where
  nct_id : Option String
  payload : Nat := 0
  deriving DecidableEq

/-- Worker of `_remove_duplicates`: `seen` is the set of already-kept
NCT ids; a record with a falsy id (`None` or the empty string) or an
already-seen id is dropped (clinical_trials_scraper.py lines 255-266). -/
def removeDuplicatesGo (seen : List String) : List Trial → List Trial
  | [] => []
  | t :: rest =>
    match t.nct_id with
    | none => removeDuplicatesGo seen rest
    | some i =>
      if i = "" ∨ i ∈ seen then removeDuplicatesGo seen rest
      else t :: removeDuplicatesGo (i :: seen) rest

/-- Model of `ClinicalTrialsScraper._remove_duplicates`
(clinical_trials_scraper.py lines 255-266). -/
def remove_duplicates (trials : List Trial) : List Trial :=
  removeDuplicatesGo [] trials

/-- Model of `_fetch_collaborator_trials` (clinical_trials_scraper.py
lines 85-125).  The network interaction is abstracted into its outcome:
`.ok trials` when the pagination loop finishes normally, and
`.error accumulated` when an HTTP or parsing exception occurs after
`accumulated` records were already appended.  The `except` block at lines
122-123 only logs, so the function falls through to `return trials`,
returning the partial accumulation. -/
def fetch_collaborator_trials (collab : Except (List Trial) (List Trial)) : List Trial :=
  match collab with
  | .error accumulated => accumulated
  | .ok trials => trials

/-- Model of `fetch_astrazeneca_cell_therapy_trials`
(clinical_trials_scraper.py lines 19-83).  `direct` is the outcome of the
direct-sponsor pagination loop, `collab` that of the collaborator loop,
abstracted as in `fetch_collaborator_trials`.  An exception in the direct
loop is caught at lines 68-73 and the handler does `return []`: the
accumulated records are discarded and the collaborator fetch at line 76
is never reached. -/
def fetch_astrazeneca_cell_therapy_trials
    (direct collab : Except (List Trial) (List Trial)) : List Trial :=
  match direct with
  | .error _ => []
  | .ok all_trials => remove_duplicates (all_trials ++ fetch_collaborator_trials collab)

/-- An email recipient; only the `email` key is consulted by the batch
bookkeeping of `send_personalized_emails`. -/
structure Recipient where
  email : String
  deriving DecidableEq

/-- Return value of `send_personalized_emails` (email_service.py lines
128-132): counts plus per-recipient `(email, status)` entries. -/
structure BatchResult where
  success_count : Nat
  error_count : Nat
  results : List (String × String)
  deriving DecidableEq

/-- The per-recipient loop of `send_personalized_emails` (email_service.py
lines 58-109).  Every exception inside the loop body is caught by the
inner `except` clauses, so each recipient yields exactly one entry:
`outcome r = true` models a successful send, `false` a caught per-recipient
failure (missing template variable or send error).  Returns
`(success_count, error_count, results)`. -/
def sendLoop (outcome : Recipient → Bool) : List Recipient → Nat × Nat × List (String × String)
  | [] => (0, 0, [])
  | r :: rest =>
    let t := sendLoop outcome rest
    if outcome r then (t.1 + 1, t.2.1, (r.email, "success") :: t.2.2)
    else (t.1, t.2.1 + 1, (r.email, "error") :: t.2.2)

/-- The connection-failure handler of `send_personalized_emails`
(email_service.py lines 118-126): for each recipient whose email is not
yet among the results, append an error entry and bump the error count. -/
def fillMissing : List Recipient → List (String × String) → Nat → List (String × String) × Nat
  | [], results, errc => (results, errc)
  | r :: rest, results, errc =>
    if results.any (fun x => x.1 == r.email) then fillMissing rest results errc
    else fillMissing rest (results ++ [(r.email, "error")]) (errc + 1)

/-- Model of `EmailService.send_personalized_emails` (email_service.py
lines 27-132).  `credsOk` models configured SMTP credentials (lines
41-46); `setupOk` the success of `SMTP()`, `starttls()` and `login()`
(lines 54-56); `quitOk` the success of `server.quit()` (line 112);
`outcome` the per-recipient send attempts.  A setup failure reaches the
outer `except` (lines 114-126) with an empty result list; a quit failure
reaches it after the loop recorded every recipient. -/
def send_personalized_emails (credsOk setupOk quitOk : Bool)
    (outcome : Recipient → Bool) (recipients : List Recipient) : BatchResult :=
  if !credsOk then
    { success_count := 0, error_count := recipients.length,
      results := recipients.map (fun r => (r.email, "error")) }
  else if setupOk then
    let t := sendLoop outcome recipients
    if quitOk then ⟨t.1, t.2.1, t.2.2⟩
    else
      let f := fillMissing recipients t.2.2 t.2.1
      ⟨t.1, f.2, f.1⟩
  else
    let f := fillMissing recipients [] 0
    ⟨0, f.2, f.1⟩

/-- Two strings whose first two characters differ are different. -/
theorem str_ne_of_take2_ne {s t : String} (h : s.data.take 2 ≠ t.data.take 2) : s ≠ t :=
  fun he => h (by rw [he])

theorem take2_areaReason (p : String) : (areaReason p).data.take 2 = ['C', 'l'] := rfl

theorem take2_minAgeReason (n : Int) : (minAgeReason n).data.take 2 = ['T', 'h'] := rfl

theorem take2_maxAgeReason (n : Int) : (maxAgeReason n).data.take 2 = ['T', 'h'] := rfl

theorem take2_condReason (cs : List String) : (condReason cs).data.take 2 = ['T', 'h'] := rfl

theorem take2_medReason (m : String) : (medReason m).data.take 2 = ['C', 'u'] := rfl

theorem formatReason_ne_areaReason (p : String) : formatReason ≠ areaReason p :=
  str_ne_of_take2_ne (by rw [take2_areaReason]; decide)

theorem formatReason_ne_minAgeReason (n : Int) : formatReason ≠ minAgeReason n :=
  str_ne_of_take2_ne (by rw [take2_minAgeReason]; decide)

theorem formatReason_ne_maxAgeReason (n : Int) : formatReason ≠ maxAgeReason n :=
  str_ne_of_take2_ne (by rw [take2_maxAgeReason]; decide)

theorem formatReason_ne_condReason (cs : List String) : formatReason ≠ condReason cs :=
  str_ne_of_take2_ne (by rw [take2_condReason]; decide)

theorem formatReason_ne_medReason (m : String) : formatReason ≠ medReason m :=
  str_ne_of_take2_ne (by rw [take2_medReason]; decide)

theorem areaReason_ne_tooYoung (p : String) : areaReason p ≠ tooYoungReason :=
  str_ne_of_take2_ne (by rw [take2_areaReason]; decide)

theorem areaReason_ne_tooOld (p : String) : areaReason p ≠ tooOldReason :=
  str_ne_of_take2_ne (by rw [take2_areaReason]; decide)

theorem areaReason_ne_healthShort (p : String) : areaReason p ≠ healthShortReason :=
  str_ne_of_take2_ne (by rw [take2_areaReason]; decide)

theorem areaReason_ne_kwReason (p : String) : areaReason p ≠ kwReason :=
  str_ne_of_take2_ne (by rw [take2_areaReason]; decide)

theorem areaReason_ne_mobileReason (p : String) : areaReason p ≠ mobileReason :=
  str_ne_of_take2_ne (by rw [take2_areaReason]; decide)

theorem areaReason_ne_minAgeReason (p : String) (n : Int) : areaReason p ≠ minAgeReason n :=
  str_ne_of_take2_ne (by rw [take2_areaReason, take2_minAgeReason]; decide)

theorem areaReason_ne_maxAgeReason (p : String) (n : Int) : areaReason p ≠ maxAgeReason n :=
  str_ne_of_take2_ne (by rw [take2_areaReason, take2_maxAgeReason]; decide)

theorem areaReason_ne_condReason (p : String) (cs : List String) :
    areaReason p ≠ condReason cs :=
  str_ne_of_take2_ne (by rw [take2_areaReason, take2_condReason]; decide)

theorem areaReason_ne_medReason (p m : String) : areaReason p ≠ medReason m :=
  str_ne_of_take2_ne (by rw [take2_areaReason, take2_medReason]; decide)

theorem mem_ageSeg {s : String} {age : Int} (h : s ∈ ageSeg age) :
    s = tooYoungReason ∨ s = tooOldReason := by
  unfold ageSeg at h
  split at h
  · exact Or.inl (List.mem_singleton.mp h)
  · split at h
    · exact Or.inr (List.mem_singleton.mp h)
    · exact absurd h (List.not_mem_nil s)

theorem mem_pincodeSeg {s p : String} (h : s ∈ pincodeSeg p) :
    s = formatReason ∨ s = areaReason p := by
  unfold pincodeSeg at h
  split at h
  · split at h
    · exact absurd h (List.not_mem_nil s)
    · exact Or.inr (List.mem_singleton.mp h)
  · exact Or.inl (List.mem_singleton.mp h)

theorem mem_healthSeg {s hi : String} (h : s ∈ healthSeg hi) : s = healthShortReason := by
  unfold healthSeg at h
  split at h
  · exact List.mem_singleton.mp h
  · exact absurd h (List.not_mem_nil s)

theorem mem_kwSeg {s hl : String} (h : s ∈ kwSeg hl) : s = kwReason := by
  unfold kwSeg at h
  split at h
  · exact List.mem_singleton.mp h
  · exact absurd h (List.not_mem_nil s)

theorem mem_mobSeg {s : String} {m : Option String} (h : s ∈ mobSeg m) : s = mobileReason := by
  cases m with
  | none => exact absurd h (List.not_mem_nil s)
  | some mv =>
    simp only [mobSeg] at h
    split at h
    · exact absurd h (List.not_mem_nil s)
    · split at h
      · exact absurd h (List.not_mem_nil s)
      · exact List.mem_singleton.mp h

theorem mem_minAgeSeg {s : String} {age : Int} {o : Option Int} (h : s ∈ minAgeSeg age o) :
    ∃ n, s = minAgeReason n := by
  cases o with
  | none => exact absurd h (List.not_mem_nil s)
  | some n =>
    simp only [minAgeSeg] at h
    split at h
    · exact ⟨n, List.mem_singleton.mp h⟩
    · exact absurd h (List.not_mem_nil s)

theorem mem_maxAgeSeg {s : String} {age : Int} {o : Option Int} (h : s ∈ maxAgeSeg age o) :
    ∃ n, s = maxAgeReason n := by
  cases o with
  | none => exact absurd h (List.not_mem_nil s)
  | some n =>
    simp only [maxAgeSeg] at h
    split at h
    · exact ⟨n, List.mem_singleton.mp h⟩
    · exact absurd h (List.not_mem_nil s)

theorem mem_condSeg {s hl : String} {o : Option (List String)} (h : s ∈ condSeg hl o) :
    ∃ cs, s = condReason cs := by
  cases o with
  | none => exact absurd h (List.not_mem_nil s)
  | some cs =>
    simp only [condSeg] at h
    split at h
    · exact absurd h (List.not_mem_nil s)
    · exact ⟨cs, List.mem_singleton.mp h⟩

theorem mem_medSeg {s hl : String} {o : Option (List String)} (h : s ∈ medSeg hl o) :
    ∃ m, s = medReason m := by
  cases o with
  | none => exact absurd h (List.not_mem_nil s)
  | some ms =>
    simp only [medSeg, List.mem_map] at h
    obtain ⟨m, -, rfl⟩ := h
    exact ⟨m, rfl⟩

theorem mem_addlSeg {s : String} {age : Int} {hl : String} {ac : Option AdditionalChecks}
    (h : s ∈ addlSeg age hl ac) :
    (∃ n, s = minAgeReason n) ∨ (∃ n, s = maxAgeReason n) ∨
    (∃ cs, s = condReason cs) ∨ (∃ m, s = medReason m) := by
  cases ac with
  | none => exact absurd h (List.not_mem_nil s)
  | some a =>
    simp only [addlSeg, List.mem_append] at h
    rcases h with ((h | h) | h) | h
    · exact Or.inl (mem_minAgeSeg h)
    · exact Or.inr (Or.inl (mem_maxAgeSeg h))
    · exact Or.inr (Or.inr (Or.inl (mem_condSeg h)))
    · exact Or.inr (Or.inr (Or.inr (mem_medSeg h)))

/-- C1: for every input on which `check_clinical_trial_eligibility`
returns, the returned `is_eligible` flag is `true` exactly when the
returned reason list is empty (models.py line 131 sets
`is_eligible = len(reasons) == 0`). -/
theorem C1_eligible_iff_reasons_empty (age : Int) (pincode : String)
    (health_info : Option String) (mobile : Option String) (ac : Option AdditionalChecks)
    (b : Bool) (rs : List String)
    (h : check_clinical_trial_eligibility age pincode health_info mobile ac = some (b, rs)) :
    b = true ↔ rs = [] := by
  cases health_info with
  | none => exact absurd h (by simp [check_clinical_trial_eligibility])
  | some hi =>
    have h' : some ((eligibilityReasons age pincode hi mobile ac).isEmpty,
        eligibilityReasons age pincode hi mobile ac) = some (b, rs) := h
    rw [Option.some_inj, Prod.ext_iff] at h'
    obtain ⟨hb, hrs⟩ := h'
    subst hb
    subst hrs
    cases eligibilityReasons age pincode hi mobile ac <;> simp

/-- Witness for C1 at a concrete eligible input. -/
theorem C1_eligible_iff_reasons_empty_witness :
    check_clinical_trial_eligibility 30 "110001"
      (some "Generally healthy with no chronic conditions") none none = some (true, []) ∧
    (true = true ↔ ([] : List String) = []) :=
  ⟨by decide, C1_eligible_iff_reasons_empty 30 "110001"
    (some "Generally healthy with no chronic conditions") none none true [] (by decide)⟩

/-- C7 counterexample: with health text `None` the source appends the
short-health reason at line 89 but then evaluates `health_info.lower()`
at line 101, raising `AttributeError`; the claim "never raises for any
health-text value including absent/None" fails at this input. -/
theorem C7_counterexample_none_health_raises :
    check_clinical_trial_eligibility 30 "110001" none none none = none := rfl

/-- C7 amended: for every input whose health text is an actual string
(including the empty string), the evaluator returns an
`(is_eligible, reasons)` pair and never raises. -/
theorem C7_returns_pair_for_string_health (age : Int) (pincode : String) (hi : String)
    (mobile : Option String) (ac : Option AdditionalChecks) :
    ∃ b rs, check_clinical_trial_eligibility age pincode (some hi) mobile ac = some (b, rs) :=
  ⟨_, _, rfl⟩

/-- C3 (code bug): the exclusionary keyword list entry `"HIV positive"`
keeps upper-case letters but models.py line 103 looks each keyword up in
the lowered health text, so a health text containing that keyword
verbatim gets no "requires specialized review" reason at all and the
participant is reported eligible. -/
theorem C3_hiv_keyword_never_fires :
    "HIV positive" ∈ exclusionaryKeywords ∧
    substrB "HIV positive" "HIV positive since 2010, on treatment" = true ∧
    check_clinical_trial_eligibility 30 "110001"
      (some "HIV positive since 2010, on treatment") none none = some (true, []) := by
  decide

/-- C4: the pincode format reason and the area-not-served reason are
mutually exclusive: the format side and the allow-list side sit on the
two branches of the if/else at models.py lines 55-85, and neither reason
string can be produced by any other rule. -/
theorem C4_format_and_area_reasons_exclusive (age : Int) (p hinfo : String)
    (mobile : Option String) (ac : Option AdditionalChecks) :
    (matchSixDigits p = false → pincodeSeg p = [formatReason]) ∧
    (matchSixDigits p = true →
      pincodeSeg p = if pyTake p 2 ∈ allowedPincodePrefixes then [] else [areaReason p]) ∧
    ¬(formatReason ∈ eligibilityReasons age p hinfo mobile ac ∧
      areaReason p ∈ eligibilityReasons age p hinfo mobile ac) := by
  refine ⟨fun hm => by simp [pincodeSeg, hm], fun hm => by simp [pincodeSeg, hm], ?_⟩
  rintro ⟨hf, ha⟩
  simp only [eligibilityReasons, List.mem_append] at hf ha
  by_cases hm : matchSixDigits p = true
  · rcases hf with ((((hf | hf) | hf) | hf) | hf) | hf
    · rcases mem_ageSeg hf with h | h
      · exact absurd h (by decide)
      · exact absurd h (by decide)
    · unfold pincodeSeg at hf
      rw [if_pos hm] at hf
      split at hf
      · exact absurd hf (List.not_mem_nil _)
      · exact formatReason_ne_areaReason p (List.mem_singleton.mp hf)
    · exact absurd (mem_healthSeg hf) (by decide)
    · exact absurd (mem_kwSeg hf) (by decide)
    · exact absurd (mem_mobSeg hf) (by decide)
    · rcases mem_addlSeg hf with ⟨n, h⟩ | ⟨n, h⟩ | ⟨cs, h⟩ | ⟨m, h⟩
      · exact formatReason_ne_minAgeReason n h
      · exact formatReason_ne_maxAgeReason n h
      · exact formatReason_ne_condReason cs h
      · exact formatReason_ne_medReason m h
  · rcases ha with ((((ha | ha) | ha) | ha) | ha) | ha
    · rcases mem_ageSeg ha with h | h
      · exact areaReason_ne_tooYoung p h
      · exact areaReason_ne_tooOld p h
    · unfold pincodeSeg at ha
      rw [if_neg hm] at ha
      exact formatReason_ne_areaReason p (List.mem_singleton.mp ha).symm
    · exact areaReason_ne_healthShort p (mem_healthSeg ha)
    · exact areaReason_ne_kwReason p (mem_kwSeg ha)
    · exact areaReason_ne_mobileReason p (mem_mobSeg ha)
    · rcases mem_addlSeg ha with ⟨n, h⟩ | ⟨n, h⟩ | ⟨cs, h⟩ | ⟨m, h⟩
      · exact areaReason_ne_minAgeReason p n h
      · exact areaReason_ne_maxAgeReason p n h
      · exact areaReason_ne_condReason p cs h
      · exact areaReason_ne_medReason p m h

/-- Witness for C4 at a concrete input whose pincode is well-formed but
outside the allow-list. -/
theorem C4_format_and_area_reasons_exclusive_witness :
    (pincodeSeg "999999" =
      if pyTake "999999" 2 ∈ allowedPincodePrefixes then [] else [areaReason "999999"]) ∧
    ¬(formatReason ∈ eligibilityReasons 25 "999999" "Good health overall today" none none ∧
      areaReason "999999" ∈ eligibilityReasons 25 "999999" "Good health overall today" none none) :=
  ⟨(C4_format_and_area_reasons_exclusive 25 "999999" "Good health overall today"
      none none).2.1 (by decide),
   (C4_format_and_area_reasons_exclusive 25 "999999" "Good health overall today"
      none none).2.2⟩

theorem tier_warning_ne_success : ("warning" : String) ≠ "success" := by decide

theorem tier_error_ne_success : ("error" : String) ≠ "success" := by decide

theorem tier_error_ne_warning : ("error" : String) ≠ "warning" := by decide

/-- C2 counterexample: `get_eligibility_message` branches on the
`is_eligible` flag, not on the reason list, so the pair
`(True, ["x"])` yields tier "success" with a nonempty reason list,
refuting "tier success iff reasons is empty" over all pairs. -/
theorem C2_counterexample_success_with_reason :
    (get_eligibility_message true ["x"]).1 = "success" ∧ (["x"] : List String) ≠ [] := by
  decide

/-- C2 amended: for pairs satisfying the evaluator's output invariant
`is_eligible = (reasons is empty)`, the composer returns tier "success"
iff the reasons are empty, returns "warning" only for a single reason
containing "area" or "health status", and otherwise (nonempty reasons)
returns "error" with the reasons joined by "; " between the fixed front
text and the contact-info tail (models.py lines 135-177). -/
theorem C2_composer_classification (b : Bool) (rs : List String) (hb : b = rs.isEmpty) :
    ((get_eligibility_message b rs).1 = "success" ↔ rs = []) ∧
    ((get_eligibility_message b rs).1 = "warning" →
      rs.length = 1 ∧ (substrB "area" (rs.headD "") = true ∨
        substrB "health status" (rs.headD "") = true)) ∧
    (rs ≠ [] →
      ¬(rs.length = 1 ∧ (substrB "area" (rs.headD "") = true ∨
        substrB "health status" (rs.headD "") = true)) →
      (get_eligibility_message b rs).1 = "error" ∧
      (get_eligibility_message b rs).2 =
        errorMessageFront ++ String.intercalate "; " rs ++ errorMessageTail) := by
  subst hb
  cases rs with
  | nil =>
    have hmsg : get_eligibility_message ([] : List String).isEmpty [] =
        ("success", successMessage) := rfl
    rw [hmsg]
    exact ⟨by simp, fun hw => absurd hw (by decide), fun hne _ => absurd rfl hne⟩
  | cons r rest =>
    have hbf : (r :: rest).isEmpty = false := rfl
    rw [hbf]
    cases rest with
    | nil =>
      by_cases ha : substrB "area" r = true
      · have hmsg : get_eligibility_message false [r] = ("warning", r ++ areaFollowUp) := by
          simp [get_eligibility_message, ha]
        rw [hmsg]
        refine ⟨⟨fun hx => absurd hx tier_warning_ne_success,
          fun hx => absurd hx (List.cons_ne_nil r [])⟩,
          fun _ => ⟨rfl, Or.inl ha⟩, fun _ hcon => absurd ⟨rfl, Or.inl ha⟩ hcon⟩
      · by_cases hh : substrB "health status" r = true
        · have hmsg : get_eligibility_message false [r] =
              ("warning", r ++ healthFollowUp) := by
            simp [get_eligibility_message, ha, hh]
          rw [hmsg]
          refine ⟨⟨fun hx => absurd hx tier_warning_ne_success,
            fun hx => absurd hx (List.cons_ne_nil r [])⟩,
            fun _ => ⟨rfl, Or.inr hh⟩, fun _ hcon => absurd ⟨rfl, Or.inr hh⟩ hcon⟩
        · have hmsg : get_eligibility_message false [r] =
              ("error", errorMessageFront ++ String.intercalate "; " [r] ++
                errorMessageTail) := by
            simp [get_eligibility_message, ha, hh]
          rw [hmsg]
          refine ⟨⟨fun hx => absurd hx tier_error_ne_success,
            fun hx => absurd hx (List.cons_ne_nil r [])⟩,
            fun hw => absurd hw tier_error_ne_warning, fun _ _ => ⟨rfl, rfl⟩⟩
    | cons r2 rest2 =>
      have hlen : ((r :: r2 :: rest2).length == 1) = false := by
        rw [beq_eq_false_iff_ne]
        simp [List.length_cons]
      have hmsg : get_eligibility_message false (r :: r2 :: rest2) =
          ("error", errorMessageFront ++ String.intercalate "; " (r :: r2 :: rest2) ++
            errorMessageTail) := by
        simp [get_eligibility_message, hlen]
      rw [hmsg]
      refine ⟨⟨fun hx => absurd hx tier_error_ne_success,
        fun hx => absurd hx (List.cons_ne_nil r _)⟩,
        fun hw => absurd hw tier_error_ne_warning, fun _ _ => ⟨rfl, rfl⟩⟩

/-- Witness for C2 with the invariant-consistent pair `(false, ["x"])`. -/
theorem C2_composer_classification_witness :
    ((get_eligibility_message false ["x"]).1 = "success" ↔ (["x"] : List String) = []) ∧
    ((get_eligibility_message false ["x"]).1 = "warning" →
      (["x"] : List String).length = 1 ∧
        (substrB "area" ((["x"] : List String).headD "") = true ∨
         substrB "health status" ((["x"] : List String).headD "") = true)) ∧
    ((["x"] : List String) ≠ [] →
      ¬((["x"] : List String).length = 1 ∧
        (substrB "area" ((["x"] : List String).headD "") = true ∨
         substrB "health status" ((["x"] : List String).headD "") = true)) →
      (get_eligibility_message false ["x"]).1 = "error" ∧
      (get_eligibility_message false ["x"]).2 =
        errorMessageFront ++ String.intercalate "; " ["x"] ++ errorMessageTail) :=
  C2_composer_classification false ["x"] (by decide)

/-- C9: every postal code of exactly five ASCII digits passes the
interest form's regex but fails the evaluator's six-digit format check,
receives the format reason, and the submission is never eligible. -/
theorem C9_five_digit_zip_never_eligible (p : String) (h5 : p.data.length = 5)
    (hd : p.data.all Char.isDigit = true) (age : Int) (hi : String)
    (mobile : Option String) (ac : Option AdditionalChecks) :
    matchFiveDigits p = true ∧ matchSixDigits p = false ∧
    formatReason ∈ eligibilityReasons age p hi mobile ac ∧
    (∀ b rs, check_clinical_trial_eligibility age p (some hi) mobile ac = some (b, rs) →
      b = false) := by
  have hm5 : matchFiveDigits p = true := by simp [matchFiveDigits, h5, hd]
  have hm6 : matchSixDigits p = false := by simp [matchSixDigits, h5]
  have hpin : pincodeSeg p = [formatReason] := by simp [pincodeSeg, hm6]
  have hmem : formatReason ∈ eligibilityReasons age p hi mobile ac := by
    unfold eligibilityReasons
    rw [hpin]
    simp
  refine ⟨hm5, hm6, hmem, ?_⟩
  intro b rs h
  have h' : some ((eligibilityReasons age p hi mobile ac).isEmpty,
      eligibilityReasons age p hi mobile ac) = some (b, rs) := h
  rw [Option.some_inj] at h'
  have hb : (eligibilityReasons age p hi mobile ac).isEmpty = b := congrArg Prod.fst h'
  rw [← hb]
  cases hE : eligibilityReasons age p hi mobile ac with
  | nil => rw [hE] at hmem; exact absurd hmem (List.not_mem_nil _)
  | cons x xs => rfl

/-- Witness for C9 with the five-digit ZIP "12345". -/
theorem C9_five_digit_zip_never_eligible_witness :
    matchFiveDigits "12345" = true ∧ matchSixDigits "12345" = false ∧
    formatReason ∈ eligibilityReasons 40 "12345" "Feeling fine and healthy" none none ∧
    (∀ b rs, check_clinical_trial_eligibility 40 "12345"
        (some "Feeling fine and healthy") none none = some (b, rs) → b = false) :=
  C9_five_digit_zip_never_eligible "12345" (by decide) (by decide) 40
    "Feeling fine and healthy" none none

theorem zipRegionLookup_catchAll {n : Nat} (h : ¬inListedZipRange n) :
    zipRegionLookup n = catchAllLocality := by
  simp only [inListedZipRange, not_or] at h
  obtain ⟨h1, h2, h3, h4, h5, h6, h7, h8, h9, h10⟩ := h
  unfold zipRegionLookup
  rw [if_neg h1, if_neg h2, if_neg h3, if_neg h4, if_neg h5, if_neg h6, if_neg h7,
    if_neg h8, if_neg h9, if_neg h10]

/-- C10 counterexample: Python `str.isdigit` is Unicode-aware, so the
five superscript-two characters of "\u00B2\u00B2\u00B2\u00B2\u00B2" pass the
isdigit-and-length-5 guard while `int()` raises `ValueError`, refuting
"returns a pair without raising" for every input string; and the
Arabic-Indic string "\u0661\u0662\u0663\u0664\u0665" coerces to its value
12345 (not 0) and maps to New York Metro, not the catch-all. -/
theorem C10_counterexample_unicode_digits :
    get_locality_from_zipcode "\u00B2\u00B2\u00B2\u00B2\u00B2" = none ∧
    zipcodeNumericValue "\u0661\u0662\u0663\u0664\u0665" = some 12345 ∧
    get_locality_from_zipcode "\u0661\u0662\u0663\u0664\u0665" =
      some ("New York Metro", "Both trials available at nearby research centers") := by
  decide

/-- C10 amended: over the modelled character repertoire,
`get_locality_from_zipcode` returns a pair unless the input consists of
exactly five digit-typed characters of which some is not a decimal digit
(then `int()` raises `ValueError`); every string failing the
isdigit-and-length-5 guard is coerced to 0 and maps to the catch-all
pair, and so does every coerced value lying in none of the listed
ranges. -/
theorem C10_locality_catchall_amended (s : String)
    (_hscope : s.data.all pyCharModelled = true) :
    (¬(pyIsDigitStr s = true ∧ s.data.length = 5) →
      zipcodeNumericValue s = some 0 ∧
      get_locality_from_zipcode s = some catchAllLocality) ∧
    (∀ n, zipcodeNumericValue s = some n → ¬inListedZipRange n →
      get_locality_from_zipcode s = some catchAllLocality) ∧
    (get_locality_from_zipcode s = none ↔
      pyIsDigitStr s = true ∧ s.data.length = 5 ∧ pyIntOfString? s = none) := by
  refine ⟨?_, ?_, ?_⟩
  · intro hno
    have hc : (pyIsDigitStr s && s.data.length == 5) = false := by
      cases hx : (pyIsDigitStr s && s.data.length == 5)
      · rfl
      · simp only [Bool.and_eq_true, beq_iff_eq] at hx
        exact absurd ⟨hx.1, hx.2⟩ hno
    have h0 : zipcodeNumericValue s = some 0 := by
      unfold zipcodeNumericValue
      rw [if_neg (fun hcc => Bool.false_ne_true (hc ▸ hcc))]
    refine ⟨h0, ?_⟩
    unfold get_locality_from_zipcode
    rw [h0]
    show some (zipRegionLookup 0) = some catchAllLocality
    rw [zipRegionLookup_catchAll (by decide)]
  · intro n hn hnr
    unfold get_locality_from_zipcode
    rw [hn]
    show some (zipRegionLookup n) = some catchAllLocality
    rw [zipRegionLookup_catchAll hnr]
  · constructor
    · intro hnone
      cases hx : (pyIsDigitStr s && s.data.length == 5) with
      | false =>
        exfalso
        have h0 : zipcodeNumericValue s = some 0 := by
          unfold zipcodeNumericValue
          rw [if_neg (fun hcc => Bool.false_ne_true (hx ▸ hcc))]
        unfold get_locality_from_zipcode at hnone
        rw [h0] at hnone
        exact Option.noConfusion hnone
      | true =>
        have hcond := hx
        simp only [Bool.and_eq_true, beq_iff_eq] at hcond
        refine ⟨hcond.1, hcond.2, ?_⟩
        have hval : zipcodeNumericValue s = pyIntOfString? s := by
          unfold zipcodeNumericValue
          rw [if_pos hx]
        cases hint : pyIntOfString? s with
        | none => rfl
        | some v =>
          exfalso
          unfold get_locality_from_zipcode at hnone
          rw [hval, hint] at hnone
          exact Option.noConfusion hnone
    · rintro ⟨hdig, hlen, hint⟩
      have hcond : (pyIsDigitStr s && s.data.length == 5) = true := by
        rw [hdig, hlen]
        rfl
      have hval : zipcodeNumericValue s = none := by
        unfold zipcodeNumericValue
        rw [if_pos hcond, hint]
      unfold get_locality_from_zipcode
      rw [hval]

/-- Witness for the amended C10 at the non-digit input "abc". -/
theorem C10_locality_catchall_amended_witness :
    zipcodeNumericValue "abc" = some 0 ∧
    get_locality_from_zipcode "abc" = some catchAllLocality :=
  (C10_locality_catchall_amended "abc" (by decide)).1 (by decide)

/-- C5 counterexample: a failure in the direct-sponsor strategy makes
`fetch_astrazeneca_cell_therapy_trials` return `[]` from inside the
`except` handler (line 70/73), so the merged return does not reflect the
collaborator strategy's records even though that strategy would have
returned one. -/
theorem C5_counterexample_direct_failure_drops_other_strategy :
    fetch_astrazeneca_cell_therapy_trials (Except.error [])
        (Except.ok [{ nct_id := some "NCT00000001", payload := 0 }]) = [] ∧
    fetch_collaborator_trials (Except.ok [{ nct_id := some "NCT00000001", payload := 0 }]) =
      [{ nct_id := some "NCT00000001", payload := 0 }] :=
  ⟨rfl, rfl⟩

/-- C5 amended: a swallowed failure in the direct strategy empties the
whole result and skips the collaborator fetch; a swallowed failure in the
collaborator strategy keeps that strategy's partial accumulation and
merges it with the direct results. -/
theorem C5_strategy_failure_behaviour (accD accC dir : List Trial)
    (collab : Except (List Trial) (List Trial)) :
    fetch_astrazeneca_cell_therapy_trials (Except.error accD) collab = [] ∧
    fetch_astrazeneca_cell_therapy_trials (Except.ok dir) (Except.error accC) =
      remove_duplicates (dir ++ accC) :=
  ⟨rfl, rfl⟩

theorem removeDuplicatesGo_filter (i : String) (hi : i ≠ "") :
    ∀ (l : List Trial) (seen : List String),
      (i ∈ seen → (removeDuplicatesGo seen l).filter (fun t => t.nct_id == some i) = []) ∧
      (i ∉ seen → (removeDuplicatesGo seen l).filter (fun t => t.nct_id == some i) =
        (l.find? (fun t => t.nct_id == some i)).toList) := by
  intro l
  induction l with
  | nil => exact fun seen => ⟨fun _ => rfl, fun _ => rfl⟩
  | cons t rest ih =>
    intro seen
    obtain ⟨tid, tpl⟩ := t
    cases tid with
    | none =>
      have hgo : removeDuplicatesGo seen (⟨none, tpl⟩ :: rest) =
          removeDuplicatesGo seen rest := rfl
      have hfind : (⟨none, tpl⟩ :: rest : List Trial).find? (fun t => t.nct_id == some i) =
          rest.find? (fun t => t.nct_id == some i) :=
        List.find?_cons_of_neg _ (by simp)
      rw [hgo, hfind]
      exact ih seen
    | some j =>
      have hgo : removeDuplicatesGo seen (⟨some j, tpl⟩ :: rest) =
          if j = "" ∨ j ∈ seen then removeDuplicatesGo seen rest
          else ⟨some j, tpl⟩ :: removeDuplicatesGo (j :: seen) rest := rfl
      constructor
      · intro hseen
        by_cases hdrop : j = "" ∨ j ∈ seen
        · rw [hgo, if_pos hdrop]
          exact (ih seen).1 hseen
        · have hji : j ≠ i := fun hx => hdrop (Or.inr (by rw [hx]; exact hseen))
          have hpt : ((⟨some j, tpl⟩ : Trial).nct_id == some i) = false := by
            simp [hji]
          rw [hgo, if_neg hdrop]
          simp only [List.filter_cons, hpt, Bool.false_eq_true, if_false]
          exact (ih (j :: seen)).1 (List.mem_cons_of_mem j hseen)
      · intro hseen
        by_cases hdrop : j = "" ∨ j ∈ seen
        · have hji : j ≠ i := by
            rintro rfl
            rcases hdrop with h | h
            · exact hi h
            · exact hseen h
          have hpt : ((⟨some j, tpl⟩ : Trial).nct_id == some i) = false := by
            simp [hji]
          have hfind : (⟨some j, tpl⟩ :: rest : List Trial).find?
              (fun t => t.nct_id == some i) = rest.find? (fun t => t.nct_id == some i) :=
            List.find?_cons_of_neg _ (by simp [hpt])
          rw [hgo, if_pos hdrop, hfind]
          exact (ih seen).2 hseen
        · by_cases hji : j = i
          · subst hji
            have hpt : ((⟨some j, tpl⟩ : Trial).nct_id == some j) = true := by simp
            have hfind : (⟨some j, tpl⟩ :: rest : List Trial).find?
                (fun t => t.nct_id == some j) = some ⟨some j, tpl⟩ :=
              List.find?_cons_of_pos _ hpt
            rw [hgo, if_neg hdrop, hfind]
            simp only [List.filter_cons, hpt, if_true]
            rw [(ih (j :: seen)).1 (List.mem_cons_self j seen)]
            rfl
          · have hpt : ((⟨some j, tpl⟩ : Trial).nct_id == some i) = false := by
              simp [hji]
            have hfind : (⟨some j, tpl⟩ :: rest : List Trial).find?
                (fun t => t.nct_id == some i) = rest.find? (fun t => t.nct_id == some i) :=
              List.find?_cons_of_neg _ (by simp [hpt])
            rw [hgo, if_neg hdrop, hfind]
            simp only [List.filter_cons, hpt, Bool.false_eq_true, if_false]
            exact (ih (j :: seen)).2
              (fun hx => (List.mem_cons.mp hx).elim (fun h => hji h.symm) hseen)

/-- C6: merging the two strategies' record lists and deduplicating keeps,
for every nonempty identifier, exactly the first record with that
identifier in concatenation order — so an identifier present in both
lists keeps the first strategy's processed record
(clinical_trials_scraper.py lines 75-83 and 255-266). -/
theorem C6_merge_dedup_keeps_first (dir col : List Trial) (i : String) (hi : i ≠ "") :
    (fetch_astrazeneca_cell_therapy_trials (Except.ok dir) (Except.ok col)).filter
        (fun t => t.nct_id == some i) =
      ((dir ++ col).find? (fun t => t.nct_id == some i)).toList :=
  (removeDuplicatesGo_filter i hi (dir ++ col) []).2 (List.not_mem_nil i)

/-- Witness for C6: the identifier "NCT01" occurs in both strategies'
outputs with different payloads; the merged output keeps the first
strategy's record only. -/
theorem C6_merge_dedup_keeps_first_witness :
    (fetch_astrazeneca_cell_therapy_trials
        (Except.ok [({ nct_id := some "NCT01", payload := 0 } : Trial)])
        (Except.ok [({ nct_id := some "NCT01", payload := 1 } : Trial)])).filter
        (fun t => t.nct_id == some "NCT01") =
      ((([({ nct_id := some "NCT01", payload := 0 } : Trial)] : List Trial) ++
        [({ nct_id := some "NCT01", payload := 1 } : Trial)]).find?
          (fun t => t.nct_id == some "NCT01")).toList :=
  C6_merge_dedup_keeps_first [({ nct_id := some "NCT01", payload := 0 } : Trial)]
    [({ nct_id := some "NCT01", payload := 1 } : Trial)] "NCT01" (by decide)

/-- C8 counterexample: with two recipients sharing one email address and
a failing SMTP session setup, the connection-failure handler (which
deduplicates by email, email_service.py line 120) records only one error
entry, so `success_count + error_count = 1` does not account for the
batch of two. -/
theorem C8_counterexample_duplicate_email :
    (send_personalized_emails true false true (fun _ => true)
        [⟨"a@example.com"⟩, ⟨"a@example.com"⟩]).success_count +
      (send_personalized_emails true false true (fun _ => true)
        [⟨"a@example.com"⟩, ⟨"a@example.com"⟩]).error_count = 1 ∧
    ([⟨"a@example.com"⟩, ⟨"a@example.com"⟩] : List Recipient).length = 2 := by
  decide

theorem fillMissing_spec :
    ∀ (rs : List Recipient) (acc : List (String × String)) (e : Nat),
      (∀ r ∈ rs, ∀ x ∈ acc, x.1 ≠ r.email) →
      (rs.map Recipient.email).Nodup →
      fillMissing rs acc e = (acc ++ rs.map (fun r => (r.email, "error")), e + rs.length) := by
  intro rs
  induction rs with
  | nil =>
    intro acc e _ _
    show (acc, e) = (acc ++ [], e + 0)
    rw [List.append_nil]
    rfl
  | cons r rest ih =>
    intro acc e hacc hnd
    have hany : (acc.any (fun x => x.1 == r.email)) = false := by
      cases hx : acc.any (fun x => x.1 == r.email)
      · rfl
      · obtain ⟨x, hxin, hxeq⟩ := List.any_eq_true.mp hx
        exact absurd (by simpa using hxeq) (hacc r (List.mem_cons_self r rest) x hxin)
    have hstep : fillMissing (r :: rest) acc e =
        fillMissing rest (acc ++ [(r.email, "error")]) (e + 1) := by
      have hunf : fillMissing (r :: rest) acc e =
          if acc.any (fun x => x.1 == r.email) then fillMissing rest acc e
          else fillMissing rest (acc ++ [(r.email, "error")]) (e + 1) := rfl
      rw [hunf, hany]
      exact if_neg (by decide)
    have hnotin : r.email ∉ rest.map Recipient.email := (List.nodup_cons.mp hnd).1
    have hacc' : ∀ r' ∈ rest, ∀ x ∈ acc ++ [(r.email, "error")], x.1 ≠ r'.email := by
      intro r' hr' x hx
      rcases List.mem_append.mp hx with h | h
      · exact hacc r' (List.mem_cons_of_mem r hr') x h
      · rw [List.mem_singleton.mp h]
        intro hcontra
        have hc2 : r.email = r'.email := hcontra
        exact hnotin (hc2.symm ▸ List.mem_map_of_mem Recipient.email hr')
    rw [hstep, ih (acc ++ [(r.email, "error")]) (e + 1) hacc' (List.nodup_cons.mp hnd).2]
    simp only [Prod.mk.injEq, List.map_cons, List.length_cons]
    exact ⟨by simp [List.append_assoc], by omega⟩

theorem sendLoop_spec (outcome : Recipient → Bool) :
    ∀ rs : List Recipient,
      (sendLoop outcome rs).2.2 =
        rs.map (fun r => (r.email, if outcome r then "success" else "error")) ∧
      (sendLoop outcome rs).1 + (sendLoop outcome rs).2.1 = rs.length := by
  intro rs
  induction rs with
  | nil => exact ⟨rfl, rfl⟩
  | cons r rest ih =>
    have hunf : sendLoop outcome (r :: rest) =
        if outcome r then
          ((sendLoop outcome rest).1 + 1, (sendLoop outcome rest).2.1,
            (r.email, "success") :: (sendLoop outcome rest).2.2)
        else
          ((sendLoop outcome rest).1, (sendLoop outcome rest).2.1 + 1,
            (r.email, "error") :: (sendLoop outcome rest).2.2) := rfl
    cases ho : outcome r with
    | true =>
      rw [hunf, ho, if_pos rfl]
      refine ⟨?_, ?_⟩
      · simp only [List.map_cons, ho, if_true]
        rw [ih.1]
      · have h2 := ih.2
        simp only [List.length_cons]
        omega
    | false =>
      rw [hunf, ho, if_neg (by decide)]
      refine ⟨?_, ?_⟩
      · simp only [List.map_cons, ho, Bool.false_eq_true, if_false]
        rw [ih.1]
      · have h2 := ih.2
        simp only [List.length_cons]
        omega

theorem fillMissing_noop :
    ∀ (rs : List Recipient) (acc : List (String × String)) (e : Nat),
      (∀ r ∈ rs, ∃ x ∈ acc, x.1 = r.email) →
      fillMissing rs acc e = (acc, e) := by
  intro rs
  induction rs with
  | nil => intro acc e _; rfl
  | cons r rest ih =>
    intro acc e hpres
    obtain ⟨x, hxin, hxeq⟩ := hpres r (List.mem_cons_self r rest)
    have hany : (acc.any (fun x => x.1 == r.email)) = true :=
      List.any_eq_true.mpr ⟨x, hxin, by simp [hxeq]⟩
    have hunf : fillMissing (r :: rest) acc e =
        if acc.any (fun x => x.1 == r.email) then fillMissing rest acc e
        else fillMissing rest (acc ++ [(r.email, "error")]) (e + 1) := rfl
    rw [hunf, hany, if_pos rfl]
    exact ih acc e (fun q hq => hpres q (List.mem_cons_of_mem r hq))

/-- C8 amended: a connection failure never loses a recipient's status
entry, in either failure position.  With a successful session setup the
per-recipient loop records every recipient (mid-batch send failures are
caught per recipient) and a `quit()` failure adds nothing, so the counts
always account for the whole batch; when the session setup itself fails,
every recipient whose email is not already recorded gets an "error"
entry, and provided the recipients' emails are pairwise distinct every
recipient appears with status "error" and `success_count + error_count`
equals the batch size.  (With duplicate emails the setup-failure handler
records only the first duplicate.) -/
theorem C8_connection_failure_accounting (recipients : List Recipient)
    (quitOk : Bool) (outcome : Recipient → Bool) :
    ((send_personalized_emails true true quitOk outcome recipients).results =
        recipients.map (fun r => (r.email, if outcome r then "success" else "error")) ∧
      (send_personalized_emails true true quitOk outcome recipients).success_count +
        (send_personalized_emails true true quitOk outcome recipients).error_count =
        recipients.length) ∧
    ((recipients.map Recipient.email).Nodup →
      (send_personalized_emails true false quitOk outcome recipients).success_count +
        (send_personalized_emails true false quitOk outcome recipients).error_count =
        recipients.length ∧
      (send_personalized_emails true false quitOk outcome recipients).results =
        recipients.map (fun r => (r.email, "error")) ∧
      ∀ r ∈ recipients, (r.email, "error") ∈
        (send_personalized_emails true false quitOk outcome recipients).results) := by
  constructor
  · have hloop := sendLoop_spec outcome recipients
    have hres : send_personalized_emails true true quitOk outcome recipients =
        ⟨(sendLoop outcome recipients).1, (sendLoop outcome recipients).2.1,
          (sendLoop outcome recipients).2.2⟩ := by
      cases quitOk with
      | true => rfl
      | false =>
        have hpres : ∀ r ∈ recipients, ∃ x ∈ (sendLoop outcome recipients).2.2,
            x.1 = r.email := by
          intro r hr
          refine ⟨(r.email, if outcome r then "success" else "error"), ?_, rfl⟩
          rw [hloop.1]
          exact List.mem_map_of_mem _ hr
        have hnoop := fillMissing_noop recipients (sendLoop outcome recipients).2.2
          (sendLoop outcome recipients).2.1 hpres
        show (⟨(sendLoop outcome recipients).1,
            (fillMissing recipients (sendLoop outcome recipients).2.2
              (sendLoop outcome recipients).2.1).2,
            (fillMissing recipients (sendLoop outcome recipients).2.2
              (sendLoop outcome recipients).2.1).1⟩ : BatchResult) = _
        rw [hnoop]
    rw [hres]
    exact ⟨hloop.1, hloop.2⟩
  · intro hnd
    have hfill := fillMissing_spec recipients [] 0
      (fun r _ x hx => absurd hx (List.not_mem_nil x)) hnd
    have hres : send_personalized_emails true false quitOk outcome recipients =
        ⟨0, (fillMissing recipients [] 0).2, (fillMissing recipients [] 0).1⟩ := by
      unfold send_personalized_emails
      rw [if_neg (by decide), if_neg (by decide)]
    rw [hres, hfill]
    refine ⟨by simp, by simp, ?_⟩
    intro r hr
    simp only [List.nil_append]
    exact List.mem_map_of_mem _ hr

/-- Witness for C8 with two recipients with distinct emails, covering
both the setup-succeeded and the setup-failed prongs. -/
theorem C8_connection_failure_accounting_witness :
    ((send_personalized_emails true true true (fun _ => true)
        [⟨"a@example.com"⟩, ⟨"b@example.com"⟩]).results =
      ([⟨"a@example.com"⟩, ⟨"b@example.com"⟩] : List Recipient).map
        (fun r => (r.email, if (fun _ : Recipient => true) r then "success" else "error")) ∧
      (send_personalized_emails true true true (fun _ => true)
        [⟨"a@example.com"⟩, ⟨"b@example.com"⟩]).success_count +
        (send_personalized_emails true true true (fun _ => true)
          [⟨"a@example.com"⟩, ⟨"b@example.com"⟩]).error_count =
        ([⟨"a@example.com"⟩, ⟨"b@example.com"⟩] : List Recipient).length) ∧
    ((send_personalized_emails true false true (fun _ => true)
        [⟨"a@example.com"⟩, ⟨"b@example.com"⟩]).success_count +
      (send_personalized_emails true false true (fun _ => true)
        [⟨"a@example.com"⟩, ⟨"b@example.com"⟩]).error_count =
      ([⟨"a@example.com"⟩, ⟨"b@example.com"⟩] : List Recipient).length ∧
    (send_personalized_emails true false true (fun _ => true)
        [⟨"a@example.com"⟩, ⟨"b@example.com"⟩]).results =
      ([⟨"a@example.com"⟩, ⟨"b@example.com"⟩] : List Recipient).map
        (fun r => (r.email, "error")) ∧
    ∀ r ∈ ([⟨"a@example.com"⟩, ⟨"b@example.com"⟩] : List Recipient),
      (r.email, "error") ∈ (send_personalized_emails true false true (fun _ => true)
        [⟨"a@example.com"⟩, ⟨"b@example.com"⟩]).results) :=
  ⟨(C8_connection_failure_accounting [⟨"a@example.com"⟩, ⟨"b@example.com"⟩] true
      (fun _ => true)).1,
   (C8_connection_failure_accounting [⟨"a@example.com"⟩, ⟨"b@example.com"⟩] true
      (fun _ => true)).2 (by decide)⟩
